import Mathlib

/-!
Shallow embedding of the payment risk decision engine (`decision_engine.py`):
the rule evaluation and scoring engine that maps a loosely-typed transaction
record and a configuration to a decision, a risk score and a reason trail.

Python runtime values reaching the engine are modelled by `Value`
(missing fields are `Option.none` on the record); Python `int` is `Int`,
Python `float` is `Rat`, Python `str` is `String`.  Decimal rendering of
integers (Python `str(int)`) is `intStr`; the rendering of floats inside
reason strings is `ratStr` (exact decimal for integral values, which is the
only text any theorem below depends on).
-/

namespace SistemaPagos

def DECISION_ACCEPTED : String := "ACCEPTED"

def DECISION_IN_REVIEW : String := "IN_REVIEW"

def DECISION_REJECTED : String := "REJECTED"

/-- A Python value as it can appear in a transaction record field. -/
inductive Value where
  | vNone
  | vInt (n : Int)
  | vFloat (q : Rat)
  | vStr (s : String)
deriving DecidableEq

/-- Decimal digits of a natural number, most significant first (Python `str`). -/
def natDigits (n : Nat) : List Char :=
  if h : n < 10 then [Char.ofNat (n + 48)]
  else natDigits (n / 10) ++ [Char.ofNat (n % 10 + 48)]
decreasing_by
  exact Nat.div_lt_self (by omega) (by omega)

def natStr (n : Nat) : String := ⟨natDigits n⟩

/-- Python `str` of an `int`. -/
def intStr (n : Int) : String :=
  if n < 0 then "-" ++ natStr n.natAbs else natStr n.toNat

/-- Rendering of a rational (embedding Python `str(float)`); exact for the
integral values used by the test vectors of the engine. -/
def ratStr (q : Rat) : String :=
  if q.den = 1 then intStr q.num ++ ".0"
  else intStr q.num ++ "/" ++ natStr q.den

/-- Python `str(value)` over a record value. -/
def pyStr : Value → String
  | .vNone => "None"
  | .vInt n => intStr n
  | .vFloat q => ratStr q
  | .vStr s => s

def digitVal (c : Char) : Nat := c.toNat - 48

def natFromDigits (ds : List Char) : Nat :=
  ds.foldl (fun a c => a * 10 + digitVal c) 0

/-- Parse a nonempty all-digit character list (helper for Python `int(str)`). -/
def parseDigits? (l : List Char) : Option Nat :=
  if l ≠ [] ∧ l.all Char.isDigit then some (natFromDigits l) else Option.none

/-- Python `int(s)` on a string: optional surrounding whitespace, optional
sign, decimal digits; `none` models the `ValueError` the source catches. -/
def parseIntStr? (s : String) : Option Int :=
  match s.trim.data with
  | '+' :: ds => (parseDigits? ds).map Int.ofNat
  | '-' :: ds => (parseDigits? ds).map (fun n => -(n : Int))
  | ds => (parseDigits? ds).map Int.ofNat

/-- Python `float(s)` on a string (integer and `a.b` decimal forms). -/
def parseRatStr? (s : String) : Option Rat :=
  let t := s.trim
  let signed : Bool × String :=
    if t.startsWith "-" then (true, t.drop 1)
    else if t.startsWith "+" then (false, t.drop 1)
    else (false, t)
  let core : Option Rat :=
    match (signed.2).splitOn "." with
    | [a] =>
      if a.data ≠ [] ∧ a.data.all Char.isDigit then some (natFromDigits a.data : Rat)
      else Option.none
    | [a, b] =>
      if (a.data ≠ [] ∨ b.data ≠ []) ∧ a.data.all Char.isDigit ∧ b.data.all Char.isDigit
      then some ((natFromDigits a.data : Rat) + (natFromDigits b.data : Rat) / ((10 : Rat) ^ b.length))
      else Option.none
    | _ => Option.none
  core.map (fun q => if signed.1 then -q else q)

/-- Python `int(value)`: identity on ints, truncation toward zero on floats,
decimal parse on strings; `none` models the exception path. -/
def pyToInt? : Value → Option Int
  | .vInt n => some n
  | .vFloat q => some (Int.tdiv q.num q.den)
  | .vStr s => parseIntStr? s
  | .vNone => Option.none

/-- Python `float(value)`. -/
def pyToFloat? : Value → Option Rat
  | .vInt n => some (n : Rat)
  | .vFloat q => some q
  | .vStr s => parseRatStr? s
  | .vNone => Option.none

/-- Embeds `_as_int(value, default)`: coerce to int, substituting the default on failure. -/
def _as_int (v : Value) (default : Int := 0) : Int := (pyToInt? v).getD default

/-- Embeds `_as_float(value, default)`. -/
def _as_float (v : Value) (default : Rat := 0) : Rat := (pyToFloat? v).getD default

/-- ASCII lower-casing of a string, character by character (Python `str.lower`). -/
def strLower (s : String) : String := ⟨s.data.map Char.toLower⟩

/-- ASCII upper-casing of a string, character by character (Python `str.upper`). -/
def strUpper (s : String) : String := ⟨s.data.map Char.toUpper⟩

/-- Embeds `_as_lower_str(value, default)`: `str(value if value is not None else default).lower()`. -/
def _as_lower_str (v : Value) (default : String := "") : String :=
  strLower
    (match v with
     | .vNone => default
     | w => pyStr w)

/-- Embeds `_as_upper_str(value, default)`. -/
def _as_upper_str (v : Value) (default : String := "") : String :=
  strUpper
    (match v with
     | .vNone => default
     | w => pyStr w)

/-- A transaction record: every field the engine reads, each possibly missing. -/
structure Row where
  chargeback_count : Option Value := Option.none
  ip_risk : Option Value := Option.none
  email_risk : Option Value := Option.none
  device_fingerprint_risk : Option Value := Option.none
  user_reputation : Option Value := Option.none
  hour : Option Value := Option.none
  bin_country : Option Value := Option.none
  ip_country : Option Value := Option.none
  amount_mxn : Option Value := Option.none
  product_type : Option Value := Option.none
  latency_ms : Option Value := Option.none
  customer_txn_30d : Option Value := Option.none
deriving DecidableEq

/-- Embeds `row.get(field, default)`. -/
def rowGet (field : Option Value) (default : Value) : Value := field.getD default

/-- Embeds `d.get(key)` for a string-keyed dict modelled as an association list. -/
def dictGet? {α : Type} : List (String × α) → String → Option α
  | [], _ => Option.none
  | (k, v) :: rest, key => if k = key then some v else dictGet? rest key

/-- Embeds `d.get(key, default)`. -/
def dictGetD {α : Type} (l : List (String × α)) (key : String) (default : α) : α :=
  (dictGet? l key).getD default

/-- The `score_weights` configuration section. -/
structure ScoreWeights where
  ip_risk : List (String × Int)
  email_risk : List (String × Int)
  device_fingerprint_risk : List (String × Int)
  user_reputation : List (String × Int)
  night_hour : Int
  geo_mismatch : Int
  high_amount : Int
  latency_extreme : Int
  new_user_high_amount : Int
deriving DecidableEq

/-- The `score_to_decision` configuration section. -/
structure ScoreToDecision where
  reject_at : Int
  review_at : Int
deriving DecidableEq

/-- The engine configuration. -/
structure Config where
  amount_thresholds : List (String × Rat)
  latency_ms_extreme : Int
  chargeback_hard_block : Int
  score_weights : ScoreWeights
  score_to_decision : ScoreToDecision
deriving DecidableEq

def DEFAULT_CONFIG : Config :=
  { amount_thresholds :=
      [("digital", 2500), ("physical", 6000), ("subscription", 1500), ("_default", 4000)]
    latency_ms_extreme := 2500
    chargeback_hard_block := 2
    score_weights :=
      { ip_risk := [("low", 0), ("medium", 2), ("high", 4)]
        email_risk := [("low", 0), ("medium", 1), ("high", 3), ("new_domain", 2)]
        device_fingerprint_risk := [("low", 0), ("medium", 2), ("high", 4)]
        user_reputation := [("trusted", -2), ("recurrent", -1), ("new", 0), ("high_risk", 4)]
        night_hour := 1
        geo_mismatch := 2
        high_amount := 2
        latency_extreme := 2
        new_user_high_amount := 2 }
    score_to_decision := { reject_at := 10, review_at := 4 } }

/-- Embeds `is_night(hour)`. -/
def is_night (hour : Int) : Bool := decide (hour ≥ 22) || decide (hour ≤ 5)

/-- Embeds `high_amount(amount, product_type, thresholds)`: threshold for the product
type, falling back to the `_default` entry. -/
def high_amount (amount : Rat) (product_type : String) (thresholds : List (String × Rat)) : Bool :=
  let t := (dictGet? thresholds product_type).getD ((dictGet? thresholds "_default").getD 0)
  decide (amount ≥ t)

/-- The mutable score accumulator, modelled functionally. -/
structure ScoreBuilder where
  score : Int
  reasons : List String
deriving DecidableEq

/-- Embeds `ScoreBuilder.add`: apply a nonzero delta and append its formatted reason;
a zero delta is a no-op. -/
def ScoreBuilder.add (sb : ScoreBuilder) (points : Int) (reason : String) : ScoreBuilder :=
  if points ≠ 0 then
    { score := sb.score + points
      reasons := sb.reasons ++
        [reason ++ "(" ++ (if points > 0 then "+" else "") ++ intStr points ++ ")"] }
  else sb

/-- Embeds `ScoreBuilder.text_reasons`: `";".join(self.reasons)`. -/
def ScoreBuilder.text_reasons (sb : ScoreBuilder) : String :=
  String.intercalate ";" sb.reasons

/-- Embeds `_hard_block(row, cfg)`. -/
def _hard_block (row : Row) (cfg : Config) : Bool :=
  let chargebacks := _as_int (rowGet row.chargeback_count (.vInt 0))
  let ip_high := _as_lower_str (rowGet row.ip_risk (.vStr "low")) == "high"
  decide (chargebacks ≥ cfg.chargeback_hard_block) && ip_high

/-- One iteration of the categorical-risk loop body. -/
def catStep (sb : ScoreBuilder) (fname : String) (field : Option Value)
    (mapping : List (String × Int)) : ScoreBuilder :=
  let val := _as_lower_str (rowGet field (.vStr "low")) "low"
  let add := dictGetD mapping val 0
  if add ≠ 0 then sb.add add (fname ++ ":" ++ val) else sb

/-- Embeds `_apply_categorical_risks(sb, row, cfg)`: the loop over the three
categorical risk fields, unrolled. -/
def _apply_categorical_risks (sb : ScoreBuilder) (row : Row) (cfg : Config) : ScoreBuilder :=
  let sb1 := catStep sb "ip_risk" row.ip_risk cfg.score_weights.ip_risk
  let sb2 := catStep sb1 "email_risk" row.email_risk cfg.score_weights.email_risk
  catStep sb2 "device_fingerprint_risk" row.device_fingerprint_risk
    cfg.score_weights.device_fingerprint_risk

/-- Embeds `_apply_user_reputation(sb, rep, cfg)`: nonzero reputation weight is
applied with a hand-formatted reason (sign `+` when the delta is `≥ 0`). -/
def _apply_user_reputation (sb : ScoreBuilder) (rep : String) (cfg : Config) : ScoreBuilder :=
  let rep_add := dictGetD cfg.score_weights.user_reputation rep 0
  if rep_add ≠ 0 then
    { score := sb.score + rep_add
      reasons := sb.reasons ++
        ["user_reputation:" ++ rep ++ "(" ++ (if rep_add ≥ 0 then "+" else "") ++
          intStr rep_add ++ ")"] }
  else sb

/-- Embeds `_apply_night_hour(sb, hour, cfg)`. -/
def _apply_night_hour (sb : ScoreBuilder) (hour : Int) (cfg : Config) : ScoreBuilder :=
  if is_night hour then sb.add cfg.score_weights.night_hour ("night_hour:" ++ intStr hour)
  else sb

/-- Embeds `_apply_geo_mismatch(sb, bin_c, ip_c, cfg)`: Python truthiness of the two
country strings is nonemptiness. -/
def _apply_geo_mismatch (sb : ScoreBuilder) (bin_c ip_c : String) (cfg : Config) : ScoreBuilder :=
  if bin_c ≠ "" ∧ ip_c ≠ "" ∧ bin_c ≠ ip_c then
    sb.add cfg.score_weights.geo_mismatch ("geo_mismatch:" ++ bin_c ++ "!=" ++ ip_c)
  else sb

/-- Embeds `_apply_amount_and_newuser(sb, amount, ptype, rep, cfg)`. -/
def _apply_amount_and_newuser (sb : ScoreBuilder) (amount : Rat) (ptype rep : String)
    (cfg : Config) : ScoreBuilder :=
  if high_amount amount ptype cfg.amount_thresholds then
    let sb1 := sb.add cfg.score_weights.high_amount
      ("high_amount:" ++ ptype ++ ":" ++ ratStr amount)
    if rep = "new" then sb1.add cfg.score_weights.new_user_high_amount "new_user_high_amount"
    else sb1
  else sb

/-- Embeds `_apply_latency_extreme(sb, latency_ms, cfg)`. -/
def _apply_latency_extreme (sb : ScoreBuilder) (latency_ms : Int) (cfg : Config) : ScoreBuilder :=
  if latency_ms ≥ cfg.latency_ms_extreme then
    sb.add cfg.score_weights.latency_extreme ("latency_extreme:" ++ intStr latency_ms ++ "ms")
  else sb

/-- Embeds `_apply_frequency_buffer(sb, rep, freq_30d)`. -/
def _apply_frequency_buffer (sb : ScoreBuilder) (rep : String) (freq_30d : Int) : ScoreBuilder :=
  if (rep = "recurrent" ∨ rep = "trusted") ∧ freq_30d ≥ 3 ∧ sb.score > 0 then
    { score := sb.score - 1, reasons := sb.reasons ++ ["frequency_buffer(-1)"] }
  else sb

/-- Embeds `_map_score_to_decision(score, cfg)`. -/
def _map_score_to_decision (score : Int) (cfg : Config) : String :=
  if score ≥ cfg.score_to_decision.reject_at then DECISION_REJECTED
  else if score ≥ cfg.score_to_decision.review_at then DECISION_IN_REVIEW
  else DECISION_ACCEPTED

/-- Signal: `rep` in `assess_row`. -/
def repSignal (row : Row) : String :=
  _as_lower_str (rowGet row.user_reputation (.vStr "new")) "new"

/-- Signal: `hour`. -/
def hourSignal (row : Row) : Int := _as_int (rowGet row.hour (.vInt 12)) 12

/-- Signal: `bin_c`. -/
def binSignal (row : Row) : String := _as_upper_str (rowGet row.bin_country (.vStr "")) ""

/-- Signal: `ip_c`. -/
def ipcSignal (row : Row) : String := _as_upper_str (rowGet row.ip_country (.vStr "")) ""

/-- Signal: `amount`. -/
def amountSignal (row : Row) : Rat := _as_float (rowGet row.amount_mxn (.vFloat 0)) 0

/-- Signal: `ptype`. -/
def ptypeSignal (row : Row) : String :=
  _as_lower_str (rowGet row.product_type (.vStr "_default")) "_default"

/-- Signal: `latency_ms`. -/
def latencySignal (row : Row) : Int := _as_int (rowGet row.latency_ms (.vInt 0)) 0

/-- Signal: `freq_30d`. -/
def freqSignal (row : Row) : Int := _as_int (rowGet row.customer_txn_30d (.vInt 0)) 0

/-- The score builder after rules (a)-(d): categorical risks, user
reputation, night hour, geo mismatch, in the fixed order of the source. -/
def sbAfterGeo (row : Row) (cfg : Config) : ScoreBuilder :=
  _apply_geo_mismatch
    (_apply_night_hour
      (_apply_user_reputation
        (_apply_categorical_risks ⟨0, []⟩ row cfg)
        (repSignal row) cfg)
      (hourSignal row) cfg)
    (binSignal row) (ipcSignal row) cfg

/-- The score builder after every additive rule, just before the frequency
buffer. -/
def sbPreBuffer (row : Row) (cfg : Config) : ScoreBuilder :=
  _apply_latency_extreme
    (_apply_amount_and_newuser (sbAfterGeo row cfg)
      (amountSignal row) (ptypeSignal row) (repSignal row) cfg)
    (latencySignal row) cfg

/-- The final score builder of a non-hard-blocked evaluation. -/
def assessSB (row : Row) (cfg : Config) : ScoreBuilder :=
  _apply_frequency_buffer (sbPreBuffer row cfg) (repSignal row) (freqSignal row)

/-- The evaluation result returned by `assess_row`. -/
structure AssessResult where
  decision : String
  risk_score : Int
  reasons : String
deriving DecidableEq

/-- Embeds `assess_row(row, cfg)`: hard-block early return, otherwise the fixed rule
pipeline followed by the score-to-decision mapping. -/
def assess_row (row : Row) (cfg : Config) : AssessResult :=
  if _hard_block row cfg then
    { decision := DECISION_REJECTED
      risk_score := 100
      reasons := "hard_block:chargebacks>=2+ip_high" }
  else
    let sb := assessSB row cfg
    { decision := _map_score_to_decision sb.score cfg
      risk_score := sb.score
      reasons := sb.text_reasons }

/-- The record with the given amount and every other field as in `row`. -/
def setAmount (row : Row) (a : Rat) : Row := { row with amount_mxn := some (.vFloat a) }

/-- The record of spec scenario 2: a new user paying 5200 for a digital
product at 23h from a medium-risk IP and a new-domain email. -/
def rowScenario2 : Row :=
  { user_reputation := some (.vStr "new")
    amount_mxn := some (.vFloat 5200)
    product_type := some (.vStr "digital")
    hour := some (.vInt 23)
    ip_risk := some (.vStr "medium")
    email_risk := some (.vStr "new_domain")
    chargeback_count := some (.vInt 0)
    bin_country := some (.vStr "MX")
    ip_country := some (.vStr "MX")
    latency_ms := some (.vInt 180) }

/-- A record whose only present field is a `"trusted"` reputation. -/
def rowTrustedOnly : Row := { user_reputation := some (.vStr "trusted") }

/-- A record that trips the hard block: two chargebacks from a high-risk IP. -/
def rowHardBlock : Row :=
  { chargeback_count := some (.vInt 2)
    ip_risk := some (.vStr "high")
    amount_mxn := some (.vFloat 300) }

/-- A recurrent, active, otherwise slightly risky record: the frequency
buffer fires on it. -/
def rowRecurrentActive : Row :=
  { user_reputation := some (.vStr "recurrent")
    customer_txn_30d := some (.vInt 40)
    ip_risk := some (.vStr "medium") }

/-- The signed delta recorded at the tail of a reason string: the text
between the last `(` and the closing `)`, read as a signed integer. -/
def parseSigned (l : List Char) : Int :=
  match l with
  | c :: ds =>
    if c = '+' then (natFromDigits ds : Int)
    else if c = '-' then -(natFromDigits ds : Int)
    else (natFromDigits l : Int)
  | [] => 0

/-- Extract the signed point delta a reason string records. -/
def parseDelta (s : String) : Int :=
  match s.data.reverse with
  | c :: rest =>
    if c = ')' then parseSigned ((rest.takeWhile (fun d => d != '(')).reverse) else 0
  | [] => 0

/-- Sum of the signed point deltas recorded in a reason trail. -/
def sumDeltas (reasons : List String) : Int := (reasons.map parseDelta).sum

lemma score_add (sb : ScoreBuilder) (p : Int) (r : String) :
    (sb.add p r).score = sb.score + p := by
  unfold ScoreBuilder.add
  split
  · rfl
  · omega

lemma assess_row_not_blocked (row : Row) (cfg : Config)
    (h : _hard_block row cfg = false) :
    assess_row row cfg =
      { decision := _map_score_to_decision (assessSB row cfg).score cfg
        risk_score := (assessSB row cfg).score
        reasons := (assessSB row cfg).text_reasons } := by
  simp [assess_row, h]

/-- C1: whenever the coerced chargeback count reaches the configured hard
block threshold and the coerced IP risk is exactly `"high"`, `assess_row`
short-circuits to the REJECTED / 100 / fixed-literal result, for every other
field value and every config. -/
theorem hard_block_precedence (row : Row) (cfg : Config)
    (hcb : cfg.chargeback_hard_block ≤ _as_int (rowGet row.chargeback_count (.vInt 0)))
    (hip : _as_lower_str (rowGet row.ip_risk (.vStr "low")) = "high") :
    assess_row row cfg =
      { decision := DECISION_REJECTED
        risk_score := 100
        reasons := "hard_block:chargebacks>=2+ip_high" } := by
  have hb : _hard_block row cfg = true := by
    simp [_hard_block, hip]
    exact hcb
  simp [assess_row, hb]

theorem hard_block_precedence_witness :
    (DEFAULT_CONFIG.chargeback_hard_block
        ≤ _as_int (rowGet rowHardBlock.chargeback_count (.vInt 0))
      ∧ _as_lower_str (rowGet rowHardBlock.ip_risk (.vStr "low")) = "high")
    ∧ assess_row rowHardBlock DEFAULT_CONFIG =
      { decision := DECISION_REJECTED
        risk_score := 100
        reasons := "hard_block:chargebacks>=2+ip_high" } :=
  ⟨⟨by decide, by decide⟩,
    hard_block_precedence rowHardBlock DEFAULT_CONFIG (by decide) (by decide)⟩

/-- C2: the decision mapper is characterised purely by the final score and
the two thresholds, with inclusive comparisons resolving ties to the more
severe bucket: a score at `reject_at` is REJECTED and a score at `review_at`
is never ACCEPTED. -/
theorem map_score_to_decision_spec (cfg : Config) (score : Int) :
    (_map_score_to_decision score cfg = DECISION_REJECTED
        ↔ cfg.score_to_decision.reject_at ≤ score)
    ∧ (_map_score_to_decision score cfg = DECISION_IN_REVIEW
        ↔ score < cfg.score_to_decision.reject_at
          ∧ cfg.score_to_decision.review_at ≤ score)
    ∧ (_map_score_to_decision score cfg = DECISION_ACCEPTED
        ↔ score < cfg.score_to_decision.reject_at
          ∧ score < cfg.score_to_decision.review_at)
    ∧ _map_score_to_decision cfg.score_to_decision.review_at cfg ≠ DECISION_ACCEPTED
    ∧ _map_score_to_decision cfg.score_to_decision.reject_at cfg = DECISION_REJECTED := by
  unfold _map_score_to_decision DECISION_REJECTED DECISION_IN_REVIEW DECISION_ACCEPTED
  refine ⟨?_, ?_, ?_, ?_, ?_⟩ <;> split_ifs <;> simp_all

/-- C7: the literal scenario of the spec (new user, digital product, amount
5200, hour 23, medium IP risk, new-domain email, both countries MX, latency
180) scores exactly 9 and lands IN_REVIEW under the default config. -/
theorem scenario2_in_review :
    (assess_row rowScenario2 DEFAULT_CONFIG).risk_score = 9
    ∧ (assess_row rowScenario2 DEFAULT_CONFIG).decision = DECISION_IN_REVIEW := by
  constructor <;> rfl

/-- C10: the returned risk score can be negative: a record whose only field
is a `"trusted"` reputation evaluates to score `-2` and decision ACCEPTED
under the default config. -/
theorem trusted_only_negative_score :
    (assess_row rowTrustedOnly DEFAULT_CONFIG).risk_score = -2
    ∧ (assess_row rowTrustedOnly DEFAULT_CONFIG).decision = DECISION_ACCEPTED := by
  constructor <;> rfl

/-- C3 counterexample: on the empty record (not hard-blocked, reputation
defaulting to `"new"` whose default weight is 0) the evaluation appends no
reason at all — in particular the user-reputation rule appends nothing when
its looked-up weight is 0, refuting "always appends a reason". -/
theorem reputation_zero_weight_appends_nothing :
    _hard_block {} DEFAULT_CONFIG = false
    ∧ repSignal {} = "new"
    ∧ dictGetD DEFAULT_CONFIG.score_weights.user_reputation "new" 0 = 0
    ∧ (assessSB {} DEFAULT_CONFIG).reasons = [] := by
  refine ⟨by rfl, by rfl, by rfl, by rfl⟩

/-- C3 amended: the user-reputation rule appends a reason if and only if the
looked-up weight is nonzero, always adds the weight to the score, and
formats a positive delta with an explicit `+` sign. -/
theorem reputation_reason_spec (sb : ScoreBuilder) (rep : String) (cfg : Config) :
    (_apply_user_reputation sb rep cfg).score
        = sb.score + dictGetD cfg.score_weights.user_reputation rep 0
    ∧ (_apply_user_reputation sb rep cfg).reasons
        = sb.reasons ++
          (if dictGetD cfg.score_weights.user_reputation rep 0 = 0 then []
           else ["user_reputation:" ++ rep ++ "(" ++
              (if 0 < dictGetD cfg.score_weights.user_reputation rep 0 then "+" else "") ++
              intStr (dictGetD cfg.score_weights.user_reputation rep 0) ++ ")"]) := by
  by_cases h0 : dictGetD cfg.score_weights.user_reputation rep 0 = 0
  · simp [_apply_user_reputation, h0]
  · have hiff : (0 ≤ dictGetD cfg.score_weights.user_reputation rep 0)
        ↔ (0 < dictGetD cfg.score_weights.user_reputation rep 0) := by omega
    simp [_apply_user_reputation, h0, ge_iff_le, hiff]

/-- C6: the engine is total and defaults are benign: the empty record maps
to ACCEPTED with score 0 and an empty reason trail under the default config,
and every record under every config yields one of the three decisions. -/
theorem default_robustness :
    assess_row {} DEFAULT_CONFIG =
      { decision := DECISION_ACCEPTED, risk_score := 0, reasons := "" }
    ∧ ∀ (row : Row) (cfg : Config),
        (assess_row row cfg).decision = DECISION_ACCEPTED
        ∨ (assess_row row cfg).decision = DECISION_IN_REVIEW
        ∨ (assess_row row cfg).decision = DECISION_REJECTED := by
  refine ⟨by rfl, fun row cfg => ?_⟩
  unfold assess_row
  split
  · exact Or.inr (Or.inr rfl)
  · unfold _map_score_to_decision
    dsimp only
    split
    · exact Or.inr (Or.inr rfl)
    · split
      · exact Or.inr (Or.inl rfl)
      · exact Or.inl rfl

lemma catStep_score (sb : ScoreBuilder) (f : String) (v : Option Value)
    (m : List (String × Int)) :
    (catStep sb f v m).score
      = sb.score + dictGetD m (_as_lower_str (rowGet v (.vStr "low")) "low") 0 := by
  unfold catStep
  dsimp only
  split
  · rw [score_add]
  · omega

lemma user_reputation_score (sb : ScoreBuilder) (rep : String) (cfg : Config) :
    (_apply_user_reputation sb rep cfg).score
      = sb.score + dictGetD cfg.score_weights.user_reputation rep 0 := by
  unfold _apply_user_reputation
  dsimp only
  split
  · rfl
  · omega

lemma night_hour_score (sb : ScoreBuilder) (hour : Int) (cfg : Config) :
    (_apply_night_hour sb hour cfg).score
      = sb.score + (if is_night hour then cfg.score_weights.night_hour else 0) := by
  unfold _apply_night_hour
  split
  · rw [score_add]
  · omega

lemma geo_mismatch_score (sb : ScoreBuilder) (b c : String) (cfg : Config) :
    (_apply_geo_mismatch sb b c cfg).score
      = sb.score + (if b ≠ "" ∧ c ≠ "" ∧ b ≠ c then cfg.score_weights.geo_mismatch else 0) := by
  unfold _apply_geo_mismatch
  split
  · rw [score_add]
  · omega

lemma amount_newuser_score (sb : ScoreBuilder) (amount : Rat) (ptype rep : String)
    (cfg : Config) :
    (_apply_amount_and_newuser sb amount ptype rep cfg).score
      = sb.score +
        (if high_amount amount ptype cfg.amount_thresholds then
          cfg.score_weights.high_amount +
            (if rep = "new" then cfg.score_weights.new_user_high_amount else 0)
         else 0) := by
  unfold _apply_amount_and_newuser
  split
  · split
    · rw [score_add, score_add]
      omega
    · rw [score_add]
      omega
  · omega

lemma latency_extreme_score (sb : ScoreBuilder) (lat : Int) (cfg : Config) :
    (_apply_latency_extreme sb lat cfg).score
      = sb.score + (if lat ≥ cfg.latency_ms_extreme then cfg.score_weights.latency_extreme else 0) := by
  unfold _apply_latency_extreme
  split
  · rw [score_add]
  · omega

lemma frequency_buffer_score (sb : ScoreBuilder) (rep : String) (f : Int) :
    (_apply_frequency_buffer sb rep f).score
      = if (rep = "recurrent" ∨ rep = "trusted") ∧ f ≥ 3 ∧ sb.score > 0 then sb.score - 1
        else sb.score := by
  unfold _apply_frequency_buffer
  split <;> rfl

/-- C4: the frequency buffer, run after every additive rule on a
non-hard-blocked record, fires exactly when the coerced reputation is
recurrent or trusted, the coerced 30-day count is at least 3, and the
running score is strictly positive; it then subtracts exactly 1 and appends
the fixed literal, and it never drives a nonnegative running score below 0
nor touches a nonpositive one. -/
theorem frequency_buffer_spec (row : Row) (cfg : Config)
    (hnb : _hard_block row cfg = false) :
    (((repSignal row = "recurrent" ∨ repSignal row = "trusted")
        ∧ 3 ≤ freqSignal row ∧ 0 < (sbPreBuffer row cfg).score) →
      (assessSB row cfg).score = (sbPreBuffer row cfg).score - 1
      ∧ (assessSB row cfg).reasons = (sbPreBuffer row cfg).reasons ++ ["frequency_buffer(-1)"]
      ∧ 0 ≤ (assessSB row cfg).score)
    ∧ (¬((repSignal row = "recurrent" ∨ repSignal row = "trusted")
        ∧ 3 ≤ freqSignal row ∧ 0 < (sbPreBuffer row cfg).score) →
      assessSB row cfg = sbPreBuffer row cfg)
    ∧ ((sbPreBuffer row cfg).score ≤ 0 → assessSB row cfg = sbPreBuffer row cfg)
    ∧ (0 ≤ (sbPreBuffer row cfg).score → 0 ≤ (assessSB row cfg).score) := by
  unfold assessSB _apply_frequency_buffer
  split_ifs with h
  · have hpos := h.2.2
    refine ⟨fun _ => ⟨rfl, rfl, ?_⟩, fun hn => absurd h hn, fun hle => absurd hpos (by omega),
      fun _ => ?_⟩ <;> dsimp only <;> omega
  · exact ⟨fun hc => absurd hc h, fun _ => rfl, fun _ => rfl, fun hge => hge⟩

theorem frequency_buffer_spec_witness :
    _hard_block rowRecurrentActive DEFAULT_CONFIG = false
    ∧ (((repSignal rowRecurrentActive = "recurrent" ∨ repSignal rowRecurrentActive = "trusted")
        ∧ 3 ≤ freqSignal rowRecurrentActive
        ∧ 0 < (sbPreBuffer rowRecurrentActive DEFAULT_CONFIG).score) →
      (assessSB rowRecurrentActive DEFAULT_CONFIG).score
          = (sbPreBuffer rowRecurrentActive DEFAULT_CONFIG).score - 1
      ∧ (assessSB rowRecurrentActive DEFAULT_CONFIG).reasons
          = (sbPreBuffer rowRecurrentActive DEFAULT_CONFIG).reasons ++ ["frequency_buffer(-1)"]
      ∧ 0 ≤ (assessSB rowRecurrentActive DEFAULT_CONFIG).score)
    ∧ (¬((repSignal rowRecurrentActive = "recurrent"
          ∨ repSignal rowRecurrentActive = "trusted")
        ∧ 3 ≤ freqSignal rowRecurrentActive
        ∧ 0 < (sbPreBuffer rowRecurrentActive DEFAULT_CONFIG).score) →
      assessSB rowRecurrentActive DEFAULT_CONFIG = sbPreBuffer rowRecurrentActive DEFAULT_CONFIG)
    ∧ ((sbPreBuffer rowRecurrentActive DEFAULT_CONFIG).score ≤ 0 →
      assessSB rowRecurrentActive DEFAULT_CONFIG = sbPreBuffer rowRecurrentActive DEFAULT_CONFIG)
    ∧ (0 ≤ (sbPreBuffer rowRecurrentActive DEFAULT_CONFIG).score →
      0 ≤ (assessSB rowRecurrentActive DEFAULT_CONFIG).score) :=
  ⟨by rfl, frequency_buffer_spec rowRecurrentActive DEFAULT_CONFIG (by rfl)⟩

lemma hard_block_setAmount (row : Row) (a : Rat) (cfg : Config) :
    _hard_block (setAmount row a) cfg = _hard_block row cfg := rfl

lemma sbAfterGeo_setAmount (row : Row) (a : Rat) (cfg : Config) :
    sbAfterGeo (setAmount row a) cfg = sbAfterGeo row cfg := rfl

lemma repSignal_setAmount (row : Row) (a : Rat) : repSignal (setAmount row a) = repSignal row :=
  rfl

lemma ptypeSignal_setAmount (row : Row) (a : Rat) :
    ptypeSignal (setAmount row a) = ptypeSignal row := rfl

lemma latencySignal_setAmount (row : Row) (a : Rat) :
    latencySignal (setAmount row a) = latencySignal row := rfl

lemma freqSignal_setAmount (row : Row) (a : Rat) :
    freqSignal (setAmount row a) = freqSignal row := rfl

lemma amountSignal_setAmount (row : Row) (a : Rat) : amountSignal (setAmount row a) = a := rfl

lemma high_amount_mono (a1 a2 : Rat) (p : String) (th : List (String × Rat))
    (h12 : a1 ≤ a2) (h1 : high_amount a1 p th = true) : high_amount a2 p th = true := by
  unfold high_amount at h1 ⊢
  rw [decide_eq_true_eq] at h1 ⊢
  exact le_trans h1 h12

lemma frequency_buffer_score_mono (rep : String) (f : Int) (sb1 sb2 : ScoreBuilder)
    (h : sb1.score ≤ sb2.score) :
    (_apply_frequency_buffer sb1 rep f).score ≤ (_apply_frequency_buffer sb2 rep f).score := by
  rw [frequency_buffer_score, frequency_buffer_score]
  split_ifs with h1 h2 h2
  · omega
  · have hle : ¬(0 < sb2.score) := fun hpos => h2 ⟨h1.1, h1.2.1, hpos⟩
    omega
  · have hle : ¬(0 < sb1.score) := fun hpos => h1 ⟨h2.1, h2.2.1, hpos⟩
    omega
  · exact h

/-- C5: with nonnegative high-amount and new-user weights, the risk score
returned by `assess_row` is monotone in the amount, all other fields held
fixed: raising the amount never lowers the score, frequency buffer and
product-type threshold included. -/
theorem amount_monotonicity (row : Row) (cfg : Config) (a1 a2 : Rat)
    (hw : 0 ≤ cfg.score_weights.high_amount)
    (hw2 : 0 ≤ cfg.score_weights.new_user_high_amount)
    (h12 : a1 ≤ a2) :
    (assess_row (setAmount row a1) cfg).risk_score
      ≤ (assess_row (setAmount row a2) cfg).risk_score := by
  by_cases hb : _hard_block row cfg
  · simp [assess_row, hard_block_setAmount, hb]
  · simp only [Bool.not_eq_true] at hb
    rw [assess_row_not_blocked _ _ ((hard_block_setAmount row a1 cfg).trans hb),
      assess_row_not_blocked _ _ ((hard_block_setAmount row a2 cfg).trans hb)]
    dsimp only
    unfold assessSB
    rw [repSignal_setAmount, repSignal_setAmount, freqSignal_setAmount, freqSignal_setAmount]
    apply frequency_buffer_score_mono
    unfold sbPreBuffer
    rw [latencySignal_setAmount, latencySignal_setAmount, latency_extreme_score,
      latency_extreme_score, amount_newuser_score, amount_newuser_score,
      sbAfterGeo_setAmount, sbAfterGeo_setAmount, amountSignal_setAmount, amountSignal_setAmount,
      ptypeSignal_setAmount, ptypeSignal_setAmount, repSignal_setAmount, repSignal_setAmount]
    have hd :
        (if high_amount a1 (ptypeSignal row) cfg.amount_thresholds then
          cfg.score_weights.high_amount +
            (if repSignal row = "new" then cfg.score_weights.new_user_high_amount else 0)
         else 0)
        ≤ (if high_amount a2 (ptypeSignal row) cfg.amount_thresholds then
          cfg.score_weights.high_amount +
            (if repSignal row = "new" then cfg.score_weights.new_user_high_amount else 0)
         else 0) := by
      by_cases hA1 : high_amount a1 (ptypeSignal row) cfg.amount_thresholds
      · rw [if_pos hA1, if_pos (high_amount_mono a1 a2 _ _ h12 hA1)]
      · rw [if_neg hA1]
        split_ifs <;> omega
    omega

theorem amount_monotonicity_witness :
    (0 ≤ DEFAULT_CONFIG.score_weights.high_amount
      ∧ 0 ≤ DEFAULT_CONFIG.score_weights.new_user_high_amount
      ∧ (100 : Rat) ≤ 5000)
    ∧ (assess_row (setAmount {} 100) DEFAULT_CONFIG).risk_score
        ≤ (assess_row (setAmount {} 5000) DEFAULT_CONFIG).risk_score :=
  ⟨⟨by decide, by decide, by decide⟩,
    amount_monotonicity {} DEFAULT_CONFIG 100 5000 (by decide) (by decide) (by decide)⟩

lemma dictGetD_cons {α : Type} (a : String) (b : α) (l : List (String × α)) (k : String)
    (d : α) : dictGetD ((a, b) :: l) k d = if a = k then b else dictGetD l k d := by
  unfold dictGetD
  show (if a = k then some b else dictGet? l k).getD d = _
  split <;> simp_all [dictGetD]

lemma dictGetD_le_of (l : List (String × Int)) (k : String) (d B : Int)
    (hd : d ≤ B) (hl : ∀ p ∈ l, p.2 ≤ B) : dictGetD l k d ≤ B := by
  induction l with
  | nil => simpa [dictGetD, dictGet?]
  | cons p rest ih =>
    obtain ⟨a, b⟩ := p
    rw [dictGetD_cons]
    split
    · exact hl (a, b) (List.mem_cons_self _ _)
    · exact ih (fun q hq => hl q (List.mem_cons_of_mem _ hq))

/-- C8: under the default config no non-hard-blocked record can score 100:
the accumulated score stays far below the hard-block sentinel, so 100
uniquely identifies the hard-block path. -/
theorem sentinel_distinct (row : Row)
    (h : _hard_block row DEFAULT_CONFIG = false) :
    (assess_row row DEFAULT_CONFIG).risk_score ≠ 100 := by
  have hip : ∀ s, dictGetD DEFAULT_CONFIG.score_weights.ip_risk s 0 ≤ 4 :=
    fun s => dictGetD_le_of _ s _ 4 (by decide) (by decide)
  have hem : ∀ s, dictGetD DEFAULT_CONFIG.score_weights.email_risk s 0 ≤ 3 :=
    fun s => dictGetD_le_of _ s _ 3 (by decide) (by decide)
  have hdev : ∀ s, dictGetD DEFAULT_CONFIG.score_weights.device_fingerprint_risk s 0 ≤ 4 :=
    fun s => dictGetD_le_of _ s _ 4 (by decide) (by decide)
  have hrep : ∀ s, dictGetD DEFAULT_CONFIG.score_weights.user_reputation s 0 ≤ 4 :=
    fun s => dictGetD_le_of _ s _ 4 (by decide) (by decide)
  have hpre : (sbPreBuffer row DEFAULT_CONFIG).score ≤ 24 := by
    unfold sbPreBuffer sbAfterGeo _apply_categorical_risks
    rw [latency_extreme_score, amount_newuser_score, geo_mismatch_score, night_hour_score,
      user_reputation_score, catStep_score, catStep_score, catStep_score]
    have e1 := hip (_as_lower_str (rowGet row.ip_risk (.vStr "low")) "low")
    have e2 := hem (_as_lower_str (rowGet row.email_risk (.vStr "low")) "low")
    have e3 := hdev (_as_lower_str (rowGet row.device_fingerprint_risk (.vStr "low")) "low")
    have e4 := hrep (repSignal row)
    have e5 : (if is_night (hourSignal row) then DEFAULT_CONFIG.score_weights.night_hour
        else 0) ≤ 1 := by
      split <;> decide
    have e6 : (if binSignal row ≠ "" ∧ ipcSignal row ≠ "" ∧ binSignal row ≠ ipcSignal row
        then DEFAULT_CONFIG.score_weights.geo_mismatch else 0) ≤ 2 := by
      split <;> decide
    have e7 : (if high_amount (amountSignal row) (ptypeSignal row)
          DEFAULT_CONFIG.amount_thresholds
        then DEFAULT_CONFIG.score_weights.high_amount +
          (if repSignal row = "new" then DEFAULT_CONFIG.score_weights.new_user_high_amount
           else 0)
        else 0) ≤ 4 := by
      split_ifs <;> decide
    have e8 : (if latencySignal row ≥ DEFAULT_CONFIG.latency_ms_extreme
        then DEFAULT_CONFIG.score_weights.latency_extreme else 0) ≤ 2 := by
      split <;> decide
    dsimp only
    omega
  rw [assess_row_not_blocked _ _ h]
  dsimp only
  unfold assessSB
  rw [frequency_buffer_score]
  split_ifs <;> omega

theorem sentinel_distinct_witness :
    _hard_block {} DEFAULT_CONFIG = false
    ∧ (assess_row {} DEFAULT_CONFIG).risk_score ≠ 100 :=
  ⟨by rfl, sentinel_distinct {} (by rfl)⟩

lemma natFromDigits_append (l : List Char) (c : Char) :
    natFromDigits (l ++ [c]) = natFromDigits l * 10 + digitVal c := by
  simp [natFromDigits, List.foldl_append]

lemma char_ofNat_digit : ∀ d, d < 10 → (Char.ofNat (d + 48)).toNat = d + 48 := by decide

lemma natFromDigits_natDigits (n : Nat) : natFromDigits (natDigits n) = n := by
  induction n using Nat.strong_induction_on with
  | _ n ih =>
    rw [natDigits]
    split
    · rename_i h
      have hd := char_ofNat_digit n h
      simp [natFromDigits, digitVal, hd]
    · rename_i h
      rw [natFromDigits_append, ih (n / 10) (Nat.div_lt_self (by omega) (by omega))]
      have hd := char_ofNat_digit (n % 10) (by omega)
      unfold digitVal
      omega

lemma natDigits_toNat_bounds (n : Nat) :
    ∀ c ∈ natDigits n, 48 ≤ c.toNat ∧ c.toNat ≤ 57 := by
  induction n using Nat.strong_induction_on with
  | _ n ih =>
    rw [natDigits]
    split
    · rename_i h
      intro c hc
      have hd := char_ofNat_digit n h
      simp at hc
      subst hc
      omega
    · rename_i h
      intro c hc
      rw [List.mem_append] at hc
      rcases hc with hc | hc
      · exact ih (n / 10) (Nat.div_lt_self (by omega) (by omega)) c hc
      · have hd := char_ofNat_digit (n % 10) (by omega)
        simp at hc
        subst hc
        omega

lemma takeWhile_append_cons {α : Type} (p : α → Bool) (l1 : List α) (b : α) (l2 : List α)
    (h1 : ∀ a ∈ l1, p a = true) (h2 : p b = false) :
    (l1 ++ b :: l2).takeWhile p = l1 := by
  induction l1 with
  | nil => simp [List.takeWhile_cons, h2]
  | cons x xs ih =>
    have hx := h1 x (List.mem_cons_self _ _)
    simp [List.takeWhile_cons, hx, ih (fun a ha => h1 a (List.mem_cons_of_mem _ ha))]

lemma intStr_data_pos (p : Int) (hp : 0 < p) : (intStr p).data = natDigits p.toNat := by
  unfold intStr
  rw [if_neg (by omega)]
  rfl

lemma intStr_data_neg (p : Int) (hp : p < 0) : (intStr p).data = '-' :: natDigits p.natAbs := by
  unfold intStr
  rw [if_pos hp]
  show ("-".data ++ (natStr p.natAbs).data) = _
  rfl

lemma parseDelta_format (r sgn : String) (p : Int) (hp : p ≠ 0)
    (hs : sgn = if 0 < p then "+" else "") :
    parseDelta (r ++ "(" ++ sgn ++ intStr p ++ ")") = p := by
  have hbody : ∀ c ∈ (sgn ++ intStr p).data, (c != '(') = true := by
    intro c hc
    rw [String.data_append] at hc
    rw [List.mem_append] at hc
    have htn : c.toNat ≠ 40 := by
      rcases hc with hc | hc
      · rcases lt_or_gt_of_ne hp with hneg | hpos
        · rw [hs, if_neg (by omega)] at hc
          simp at hc
        · rw [hs, if_pos hpos] at hc
          have : c = '+' := by simpa using hc
          subst this
          decide
      · rcases lt_or_gt_of_ne hp with hneg | hpos
        · rw [intStr_data_neg p hneg] at hc
          rcases List.mem_cons.mp hc with hc | hc
          · subst hc
            decide
          · have := natDigits_toNat_bounds _ _ hc
            omega
        · rw [intStr_data_pos p hpos] at hc
          have := natDigits_toNat_bounds _ _ hc
          omega
    rw [bne_iff_ne]
    intro he
    subst he
    exact htn (by decide)
  have hdata : (r ++ "(" ++ sgn ++ intStr p ++ ")").data.reverse
      = ')' :: ((sgn ++ intStr p).data.reverse ++ '(' :: r.data.reverse) := by
    simp [String.data_append]
  unfold parseDelta
  rw [hdata]
  dsimp only
  rw [if_pos rfl]
  have htake : (((sgn ++ intStr p).data.reverse ++ '(' :: r.data.reverse).takeWhile
      (fun d => d != '(')) = (sgn ++ intStr p).data.reverse := by
    apply takeWhile_append_cons
    · intro a ha
      exact hbody a (List.mem_reverse.mp ha)
    · decide
  rw [htake, List.reverse_reverse]
  rcases lt_or_gt_of_ne hp with hneg | hpos
  · rw [hs, if_neg (by omega)]
    have hd : (("" : String) ++ intStr p).data = '-' :: natDigits p.natAbs := by
      rw [String.data_append, intStr_data_neg p hneg]
      rfl
    rw [hd]
    unfold parseSigned
    dsimp only
    rw [if_neg (by decide), if_pos rfl, natFromDigits_natDigits]
    omega
  · rw [hs, if_pos hpos]
    have hd : (("+" : String) ++ intStr p).data = '+' :: natDigits p.toNat := by
      rw [String.data_append, intStr_data_pos p hpos]
      rfl
    rw [hd]
    unfold parseSigned
    dsimp only
    rw [if_pos rfl, natFromDigits_natDigits]
    omega

lemma sumDeltas_append_one (rs : List String) (s : String) :
    sumDeltas (rs ++ [s]) = sumDeltas rs + parseDelta s := by
  simp [sumDeltas]

lemma trail_add (sb : ScoreBuilder) (p : Int) (r : String)
    (h : sb.score = sumDeltas sb.reasons) :
    (sb.add p r).score = sumDeltas (sb.add p r).reasons := by
  unfold ScoreBuilder.add
  split
  · rename_i hp
    dsimp only
    rw [sumDeltas_append_one, parseDelta_format r _ p hp rfl]
    omega
  · exact h

lemma trail_catStep (sb : ScoreBuilder) (f : String) (v : Option Value)
    (m : List (String × Int)) (h : sb.score = sumDeltas sb.reasons) :
    (catStep sb f v m).score = sumDeltas (catStep sb f v m).reasons := by
  unfold catStep
  dsimp only
  split
  · exact trail_add _ _ _ h
  · exact h

lemma trail_user_reputation (sb : ScoreBuilder) (rep : String) (cfg : Config)
    (h : sb.score = sumDeltas sb.reasons) :
    (_apply_user_reputation sb rep cfg).score
      = sumDeltas (_apply_user_reputation sb rep cfg).reasons := by
  unfold _apply_user_reputation
  dsimp only
  split
  · rename_i hp
    dsimp only
    rw [sumDeltas_append_one,
      parseDelta_format ("user_reputation:" ++ rep) _ _ hp (by
        rcases lt_or_gt_of_ne hp with hneg | hpos
        · rw [if_neg (by omega), if_neg (by omega)]
        · rw [if_pos (by omega), if_pos hpos])]
    omega
  · exact h

lemma trail_night_hour (sb : ScoreBuilder) (hr : Int) (cfg : Config)
    (h : sb.score = sumDeltas sb.reasons) :
    (_apply_night_hour sb hr cfg).score = sumDeltas (_apply_night_hour sb hr cfg).reasons := by
  unfold _apply_night_hour
  split
  · exact trail_add _ _ _ h
  · exact h

lemma trail_geo_mismatch (sb : ScoreBuilder) (b c : String) (cfg : Config)
    (h : sb.score = sumDeltas sb.reasons) :
    (_apply_geo_mismatch sb b c cfg).score
      = sumDeltas (_apply_geo_mismatch sb b c cfg).reasons := by
  unfold _apply_geo_mismatch
  split
  · exact trail_add _ _ _ h
  · exact h

lemma trail_amount_newuser (sb : ScoreBuilder) (a : Rat) (pt rep : String) (cfg : Config)
    (h : sb.score = sumDeltas sb.reasons) :
    (_apply_amount_and_newuser sb a pt rep cfg).score
      = sumDeltas (_apply_amount_and_newuser sb a pt rep cfg).reasons := by
  unfold _apply_amount_and_newuser
  dsimp only
  split
  · split
    · exact trail_add _ _ _ (trail_add _ _ _ h)
    · exact trail_add _ _ _ h
  · exact h

lemma trail_latency_extreme (sb : ScoreBuilder) (lat : Int) (cfg : Config)
    (h : sb.score = sumDeltas sb.reasons) :
    (_apply_latency_extreme sb lat cfg).score
      = sumDeltas (_apply_latency_extreme sb lat cfg).reasons := by
  unfold _apply_latency_extreme
  split
  · exact trail_add _ _ _ h
  · exact h

lemma trail_frequency_buffer (sb : ScoreBuilder) (rep : String) (f : Int)
    (h : sb.score = sumDeltas sb.reasons) :
    (_apply_frequency_buffer sb rep f).score
      = sumDeltas (_apply_frequency_buffer sb rep f).reasons := by
  unfold _apply_frequency_buffer
  split
  · dsimp only
    rw [sumDeltas_append_one]
    have hfb : parseDelta "frequency_buffer(-1)" = -1 := by decide
    omega
  · exact h

lemma trail_assessSB (row : Row) (cfg : Config) :
    (assessSB row cfg).score = sumDeltas (assessSB row cfg).reasons := by
  unfold assessSB sbPreBuffer sbAfterGeo _apply_categorical_risks
  exact trail_frequency_buffer _ _ _
    (trail_latency_extreme _ _ _
      (trail_amount_newuser _ _ _ _ _
        (trail_geo_mismatch _ _ _ _
          (trail_night_hour _ _ _
            (trail_user_reputation _ _ _
              (trail_catStep _ _ _ _
                (trail_catStep _ _ _ _
                  (trail_catStep _ _ _ _ rfl))))))))

/-- C9: on every non-hard-blocked record the final risk score equals the sum
of the signed deltas recorded in the reason trail: every score change
appends exactly one reason carrying its delta and vice versa. -/
theorem score_equals_trail (row : Row) (cfg : Config)
    (h : _hard_block row cfg = false) :
    (assess_row row cfg).risk_score = sumDeltas (assessSB row cfg).reasons := by
  rw [assess_row_not_blocked _ _ h]
  exact trail_assessSB row cfg

theorem score_equals_trail_witness :
    _hard_block rowScenario2 DEFAULT_CONFIG = false
    ∧ (assess_row rowScenario2 DEFAULT_CONFIG).risk_score
        = sumDeltas (assessSB rowScenario2 DEFAULT_CONFIG).reasons :=
  ⟨by rfl, score_equals_trail rowScenario2 DEFAULT_CONFIG (by rfl)⟩

end SistemaPagos
